import Mathlib

/-!
Verification development for the spy-dashboard trading system.

This file gives a shallow embedding, in Lean 4, of the parts of the source
that the checked properties concern:

* `src/logic/regime.py` — the 0DTE permission logic (`get_0dte_permission`);
* `src/logic/intraday.py` — EMA with cross-session seeding (`calculate_ema`)
  and percentage returns (`calculate_returns`);
* `src/logic/chop_detector.py` — `detect_chop` and `apply_chop_filter`;
* `src/logic/time_filters.py` — `get_time_filter` and `apply_time_filter`;
* `src/logic/signals.py` — `apply_environment_filters` and the options-mode
  gate inside `generate_signal`;
* `src/backtest/backtest_engine.py` — the per-bar state machine of
  `BacktestEngine.run_backtest`: exit checks, entry checks, the end-of-day
  forced close, slippage, spread filter, and commission handling.

Modelling conventions:

* Python floats are modelled as `ℚ`; pandas NaN propagation is modelled with
  `Option ℚ` where a claim-relevant value can be NaN.
* Clock times compared in the source as zero-padded "HH:MM" strings are
  modelled as minutes since midnight (`ℕ`); lexicographic order on zero-padded
  "HH:MM" strings coincides with numeric order on minutes.
* Bar timestamps are `ℚ` (minutes since an arbitrary epoch), so that the
  cooldown arithmetic `(idx - last_stop_loss.time)` in minutes is direct.
* Numeric string formatting (Python `:.2f` and friends) inside reason strings
  is abstracted as `toString` of the rational; no property depends on the
  precise digits.
* The Black-Scholes pricer (`logic/options.py:black_scholes_price`) involves
  `exp`/`log`/`Φ` and is opaque to every checked property; the engine is
  parametrised over a `Pricer` function exactly where the source calls
  `self._get_option_price`.
* `config.BACKTEST_SLIPPAGE_PCT`, `config.BACKTEST_COMMISSION_PER_CONTRACT`
  and `config.BACKTEST_MAX_SPREAD_FILTER` are referenced by the engine but are
  not defined in `src/config.py`; they are modelled as fields of `EngineCfg`.
-/

namespace SpyDashboard

/-- Signal direction: the strings 'CALL' / 'PUT' / 'NONE' in the source. -/
inductive SigDir
  | CALL
  | PUT
  | NONE
deriving DecidableEq, Repr

/-- Signal confidence: the strings 'LOW' / 'MEDIUM' / 'HIGH' in the source. -/
inductive Confidence
  | LOW
  | MEDIUM
  | HIGH
deriving DecidableEq, Repr

/-- Position direction: the strings 'LONG' / 'SHORT' in the source. -/
inductive PosDir
  | LONG
  | SHORT
deriving DecidableEq, Repr

/-- Option side: the strings 'call' / 'put' in the source. -/
inductive OptKind
  | call
  | put
deriving DecidableEq, Repr

/-- The signal dictionary produced by `generate_signal` and transformed by the
filter stages: keys 'direction', 'confidence', 'reason'. -/
structure Signal where
  direction : SigDir
  confidence : Confidence
  reason : String
deriving DecidableEq, Repr

/- Constants from `src/config.py` that the embedded code reads.
Times are minutes since midnight; percentages are exact rationals. -/
namespace config

def GAP_SMALL_THRESHOLD : ℚ := 2 / 1000

def RANGE_LOW_THRESHOLD : ℚ := 5 / 1000

def RANGE_HIGH_THRESHOLD : ℚ := 15 / 1000

def SESSION_START : ℕ := 9 * 60 + 45

def SESSION_END : ℕ := 15 * 60 + 30

def LUNCH_CHOP_START : ℕ := 11 * 60 + 45

def LUNCH_CHOP_END : ℕ := 13 * 60 + 30

def AFTERNOON_WAKEUP_START : ℕ := 13 * 60 + 45

def AFTERNOON_WAKEUP_END : ℕ := 14 * 60 + 15

def POWER_HOUR_START : ℕ := 14 * 60 + 15

def BLOCK_TRADE_AFTER : ℕ := 14 * 60 + 30

def REDUCE_CONFIDENCE_AFTER_OPEN_MINUTES : ℤ := 10

def CHOP_VWAP_CROSSES_THRESHOLD : ℕ := 3

def CHOP_EMA_FLAT_THRESHOLD : ℚ := 1 / 1000

def CHOP_ATR_THRESHOLD : ℚ := 2 / 1000

def CHOP_VWAP_RANGE_THRESHOLD : ℚ := 2 / 1000

def BACKTEST_REENTRY_COOLDOWN_MINUTES : ℚ := 30

end config

/-! ## `src/logic/regime.py` -/

/-- Result dictionary of `get_0dte_permission`: keys 'status', 'reason',
'score'. -/
structure Permission where
  status : String
  reason : String
  score : ℚ
deriving DecidableEq, Repr

/-- `regime.py:get_0dte_permission` (lines 149-193).  `vix_level = none`
models Python `None` (parameter default). -/
def get_0dte_permission (_trend : String) (gap_pct range_pct : ℚ)
    (vix_level : Option ℚ) : Permission :=
  let gap_abs := |gap_pct|
  -- HARD DECK: AVOID if VIX <= 15
  if (match vix_level with
      | some v => decide (v ≤ 15)
      | none => false) then
    ⟨"AVOID", "VIX too low - avoid 0DTE options (insufficient volatility)", 0⟩
  -- AVOID: small gap + low range = likely chop
  else if gap_abs < config.GAP_SMALL_THRESHOLD * 100 ∧
      range_pct < config.RANGE_LOW_THRESHOLD * 100 then
    ⟨"AVOID", "Likely chop - avoid aggressive 0DTE directions", 0⟩
  -- FAVORABLE: high range = volatile day
  else if range_pct > config.RANGE_HIGH_THRESHOLD * 100 then
    ⟨"FAVORABLE", "Volatile day - directional 0DTE OK", 1⟩
  -- CAUTION: mixed conditions
  else
    ⟨"CAUTION", "Mixed conditions - use caution",
      range_pct / (config.RANGE_HIGH_THRESHOLD * 100)⟩

/-! ## `src/logic/intraday.py` -/

/-- The EMA recurrence `ema = alpha * price + (1 - alpha) * prev`, threading
the previous EMA value through the list (the loop of `calculate_ema`,
lines 56-64). -/
def emaFrom (alpha prev : ℚ) : List ℚ → List ℚ
  | [] => []
  | p :: rest =>
    let e := alpha * p + (1 - alpha) * prev
    e :: emaFrom alpha e rest

/-- Pandas `ewm(span=period, adjust=False).mean()` on a price list: the same
recurrence seeded with the first price itself (the seedless default branch of
`calculate_ema`, line 71). -/
def ewmAdjustFalse (alpha : ℚ) : List ℚ → List ℚ
  | [] => []
  | p :: rest => p :: emaFrom alpha p rest

/-- `intraday.py:calculate_ema` (lines 32-71) on the list of closes.
When a (non-NaN) previous EMA is supplied and the frame is non-empty, the
seeded recurrence is used; otherwise the seedless `ewm` default. -/
def calculate_ema (prices : List ℚ) (period : ℚ)
    (previous_ema : Option ℚ) : List ℚ :=
  match previous_ema, prices with
  | some prev, _ :: _ => emaFrom (2 / (period + 1)) prev prices
  | _, _ => ewmAdjustFalse (2 / (period + 1)) prices

/-- `intraday.py:calculate_returns` (lines 74-85):
`df['Close'].pct_change(periods) * 100`.  Entry `i` is `none` (NaN) when
`i < periods`, and otherwise the percentage change over `periods` bars —
note the result is in PERCENT units (multiplied by 100). -/
def calculate_returns (closes : List ℚ) (periods : ℕ) : List (Option ℚ) :=
  (List.range closes.length).map fun i =>
    if i < periods then none
    else some ((closes.getD i 0 - closes.getD (i - periods) 0) /
      closes.getD (i - periods) 0 * 100)

/-- The `return_5` field of `analyze_intraday` (lines 165-168): the last
5-bar percentage return, with NaN mapped to 0. -/
def latest_return_5 (closes : List ℚ) : ℚ :=
  ((calculate_returns closes 5).getLast?.getD none).getD 0

/-! ## `src/logic/chop_detector.py` -/

/-- An intraday OHLC bar as consumed by the chop detector. -/
structure ChopBar where
  high : ℚ
  low : ℚ
  close : ℚ
deriving DecidableEq, Repr

/-- Number of adjacent sign changes in a boolean list: the value of
`(price_above != price_above.shift()).sum() - 1` (which counts the first,
always-True NaN comparison and then subtracts it). -/
def transitions : List Bool → ℕ
  | [] => 0
  | [_] => 0
  | a :: b :: rest => (if a ≠ b then 1 else 0) + transitions (b :: rest)

/-- `chop_detector.py:count_vwap_crosses` (lines 42-68) on the close and VWAP
lists (positionally aligned, as the two series share the same index). -/
def count_vwap_crosses (closes vwap : List ℚ) (lookback_bars : ℕ) : ℕ :=
  if closes.length < 2 ∨ vwap.length < 2 then 0
  else
    let recent_close := closes.drop (closes.length - lookback_bars)
    let recent_vwap := vwap.drop (vwap.length - lookback_bars)
    if recent_close.length < 2 then 0
    else
      let price_above := (recent_close.zip recent_vwap).map
        fun pv => decide (pv.1 > pv.2)
      transitions price_above

/-- `chop_detector.py:check_ema_flat` (lines 71-94).  (ℚ-division by zero
yields 0 where Python floats would raise; the branch is irrelevant to every
checked property.) -/
def check_ema_flat (ema_fast ema_slow : List ℚ) (lookback : ℕ) : Bool :=
  if ema_fast.length < lookback ∨ ema_slow.length < lookback then false
  else
    let rf := ema_fast.drop (ema_fast.length - lookback)
    let rs := ema_slow.drop (ema_slow.length - lookback)
    let fast_slope := |(rf.getLast?.getD 0 - rf.head?.getD 0) / rf.head?.getD 0|
    let slow_slope := |(rs.getLast?.getD 0 - rs.head?.getD 0) / rs.head?.getD 0|
    decide (fast_slope < config.CHOP_EMA_FLAT_THRESHOLD ∧
      slow_slope < config.CHOP_EMA_FLAT_THRESHOLD)

/-- True-range entries after the first bar (the `max` of the three
candidates; the first bar is handled in `trList`). -/
def trAux (prev : ChopBar) : List ChopBar → List ℚ
  | [] => []
  | b :: rest =>
    max (b.high - b.low) (max |b.high - prev.close| |b.low - prev.close|) ::
      trAux b rest

/-- The per-bar true-range series: for the first bar the shifted close is NaN,
so the `max(axis=1)` (which skips NaN) reduces to `high - low`. -/
def trList : List ChopBar → List ℚ
  | [] => []
  | b :: rest => (b.high - b.low) :: trAux b rest

/-- `chop_detector.py:calculate_atr` (lines 11-39).  `none` models the NaN
that `rolling(window=period).mean()` produces while fewer than `period`
true-range samples exist. -/
def calculate_atr (bars : List ChopBar) (period : ℕ) : Option ℚ :=
  if bars.length < 2 then some 0
  else
    let tr := trList bars
    if bars.length < period then none
    else some ((tr.drop (tr.length - period)).sum / period)

/-- `chop_detector.py:check_vwap_range` (lines 97-120). -/
def check_vwap_range (bars : List ChopBar) (vwap : List ℚ) : Bool :=
  match bars.getLast?, vwap.getLast? with
  | some b, some v =>
    if v = 0 then false
    else decide (|b.close - v| / v < config.CHOP_VWAP_RANGE_THRESHOLD)
  | _, _ => false

/-- Result dictionary of `detect_chop`: keys 'is_chop', 'reasons',
'chop_score'. -/
structure ChopResult where
  is_chop : Bool
  reasons : List String
  chop_score : ℕ
deriving DecidableEq, Repr

/-- `chop_detector.py:detect_chop` (lines 123-179). -/
def detect_chop (bars : List ChopBar) (vwap ema_fast ema_slow : List ℚ) :
    ChopResult :=
  if bars.length < 12 then ⟨false, [], 0⟩
  else
    let closes := bars.map ChopBar.close
    let vwap_crosses := count_vwap_crosses closes vwap 12
    let c1 : Bool := decide (vwap_crosses ≥ config.CHOP_VWAP_CROSSES_THRESHOLD)
    let c2 : Bool := check_ema_flat ema_fast ema_slow 12
    let atr := calculate_atr bars 14
    let current_price := closes.getLast?.getD 0
    let atr_pct : Option ℚ :=
      if current_price > 0 then atr.map (fun a => a / current_price)
      else some 0
    let c3 : Bool :=
      match atr_pct with
      | some x => decide (x < config.CHOP_ATR_THRESHOLD)
      | none => false
    let c4 : Bool := check_vwap_range bars vwap
    let reasons :=
      (if c1 then ["VWAP crossed " ++ toString vwap_crosses ++
        " times in last hour"] else []) ++
      (if c2 then ["EMAs are flat (no trend)"] else []) ++
      (if c3 then ["Low ATR (" ++ toString (atr_pct.getD 0 * 100) ++
        "% < " ++ toString (config.CHOP_ATR_THRESHOLD * 100) ++ "%)"]
       else []) ++
      (if c4 then ["Price range tight around VWAP"] else [])
    let chop_score := (if c1 then 1 else 0) + (if c2 then 1 else 0) +
      (if c3 then 1 else 0) + (if c4 then 1 else 0)
    ⟨decide (chop_score ≥ 2), reasons, chop_score⟩

/-- `chop_detector.py:apply_chop_filter` (lines 182-215).  Note that the
strong-chop branch (score ≥ 3) REPLACES the reason string, while the
reduce-confidence branch appends to it. -/
def apply_chop_filter (signal : Signal) (chop_result : ChopResult) : Signal :=
  if ¬ chop_result.is_chop then signal
  else if signal.direction = SigDir.NONE then signal
  else if chop_result.chop_score ≥ 3 then
    ⟨SigDir.NONE, Confidence.LOW,
      "Chop detected (" ++ String.intercalate ", " chop_result.reasons ++ ")"⟩
  else
    ⟨signal.direction, Confidence.LOW,
      signal.reason ++ "; Chop detected (" ++
        String.intercalate ", " chop_result.reasons ++ ")"⟩

/-! ## `src/logic/time_filters.py` -/

/-- Result dictionary of `get_time_filter`: keys 'allow_trade',
'confidence_multiplier', 'reason'. -/
structure TimeFilterRes where
  allow_trade : Bool
  confidence_multiplier : ℚ
  reason : String
deriving DecidableEq, Repr

/-- `time_filters.py:get_time_filter` (lines 11-110), on the wall-clock hour
and minute of `current_time`. -/
def get_time_filter (hh mm : ℕ) : TimeFilterRes :=
  let t := hh * 60 + mm
  if t < config.SESSION_START then
    ⟨false, 0, "Pre-market period - trading blocked"⟩
  else if config.LUNCH_CHOP_START ≤ t ∧ t < config.LUNCH_CHOP_END then
    ⟨false, 0, "Lunch Chop (11:45-1:30) - blocked due to chop risk"⟩
  else if t ≥ config.SESSION_END then
    ⟨false, 0, "Market close approaches - trading blocked"⟩
  else if t ≥ config.BLOCK_TRADE_AFTER then
    ⟨false, 0, "Late day entry block (after 14:30) - 0DTE theta risk"⟩
  else
    -- minutes since the 09:45 session start, computed in ℤ as in the source
    let minutes_since_open : ℤ := ((hh : ℤ) - 9) * 60 + ((mm : ℤ) - 45)
    if 0 ≤ minutes_since_open ∧
        minutes_since_open ≤ config.REDUCE_CONFIDENCE_AFTER_OPEN_MINUTES then
      ⟨true, 1/2, "Early open volatility (first 10m) - reduced confidence"⟩
    else if config.AFTERNOON_WAKEUP_START ≤ t ∧
        t < config.AFTERNOON_WAKEUP_END then
      ⟨true, 7/10, "Afternoon transition (1:45-2:15) - reduced confidence"⟩
    else if config.POWER_HOUR_START ≤ t ∧ t < config.BLOCK_TRADE_AFTER then
      ⟨true, 12/10, "Afternoon breakout window - boosted confidence"⟩
    else
      ⟨true, 1, "High quality trading window"⟩

/-- The `confidence_map` dictionary of `apply_time_filter`. -/
def confidence_map : Confidence → ℤ
  | Confidence.LOW => 1
  | Confidence.MEDIUM => 2
  | Confidence.HIGH => 3

/-- Python `int()` truncation toward zero on a rational. -/
def pyInt (q : ℚ) : ℤ := if q < 0 then q.ceil else q.floor

/-- The `reverse_map` dictionary of `apply_time_filter`, with the `.get`
default falling back to the original confidence. -/
def reverse_map (n : ℤ) (original : Confidence) : Confidence :=
  if n = 1 then Confidence.LOW
  else if n = 2 then Confidence.MEDIUM
  else if n = 3 then Confidence.HIGH
  else original

/-- `time_filters.py:apply_time_filter` (lines 113-159). -/
def apply_time_filter (signal : Signal) (hh mm : ℕ) : Signal :=
  let time_filter := get_time_filter hh mm
  if ¬ time_filter.allow_trade then
    ⟨SigDir.NONE, Confidence.LOW, signal.reason ++ "; " ++ time_filter.reason⟩
  else
    let confidence_mult := time_filter.confidence_multiplier
    let original_confidence := signal.confidence
    let numeric_conf := confidence_map original_confidence
    let adjusted_conf := max 1 (min 3 (pyInt (numeric_conf * confidence_mult)))
    let new_confidence := reverse_map adjusted_conf original_confidence
    if confidence_mult < 6/10 ∧ original_confidence = Confidence.LOW then
      ⟨SigDir.NONE, Confidence.LOW,
        signal.reason ++ "; " ++ time_filter.reason⟩
    else
      ⟨signal.direction, new_confidence,
        signal.reason ++ "; " ++ time_filter.reason⟩

/-! ## `src/logic/signals.py` -/

/-- The `market_phase` dictionary: keys 'label', 'is_open'. -/
structure MarketPhase where
  label : String
  is_open : Bool
deriving DecidableEq, Repr

/-- The `iv_context` dictionary as read by the signal filters: optional
keys 'atm_iv' and 'vix_level'. -/
structure IvContext where
  atm_iv : Option ℚ
  vix_level : Option ℚ
deriving DecidableEq, Repr

/-- The IV block of `apply_environment_filters` (signals.py lines 203-219),
operating on the locals `direction`, `confidence`, `reason` as mutated by
the earlier blocks.  `iv_context = none` models a `None` or empty (falsy)
dictionary. -/
def envIvStage (direction : SigDir) (confidence : Confidence) (reason : String)
    (iv_context : Option IvContext) : Signal :=
  match iv_context with
  | some ctx =>
    match ctx.atm_iv, ctx.vix_level with
    | some atm_iv, some vix_level =>
      if atm_iv < 15 ∧ vix_level < 15 ∧ confidence = Confidence.MEDIUM then
        ⟨direction, Confidence.LOW, reason ++ "; Low IV (calm)"⟩
      else if atm_iv > 20 ∨ vix_level > 20 then
        ⟨direction,
          (if confidence = Confidence.MEDIUM then Confidence.HIGH
           else confidence),
          reason ++ "; High IV (elevated volatility)"⟩
      else ⟨direction, confidence, reason⟩
    | _, _ => ⟨direction, confidence, reason⟩
  | none => ⟨direction, confidence, reason⟩

/-- The market-phase block of `apply_environment_filters` (lines 189-201),
continuing into the IV block. -/
def envPhaseStage (direction : SigDir) (confidence : Confidence)
    (reason : String) (market_phase : Option MarketPhase)
    (iv_context : Option IvContext) : Signal :=
  match market_phase with
  | some phase =>
    if phase.is_open = false ∧ direction ≠ SigDir.NONE then
      ⟨SigDir.NONE, Confidence.LOW,
        reason ++ "; Session " ++ phase.label ++ " - signals paused"⟩
    else envIvStage direction confidence reason iv_context
  | none => envIvStage direction confidence reason iv_context

/-- `signals.py:apply_environment_filters` (lines 170-219).  `permission` is
`regime.get('0dte_status')`. -/
def apply_environment_filters (signal : Signal) (permission : Option String)
    (market_phase : Option MarketPhase) (iv_context : Option IvContext) :
    Signal :=
  if permission = some ("AVOID") ∧ signal.direction ≠ SigDir.NONE then
    ⟨signal.direction, Confidence.LOW, signal.reason ++ "; 0DTE AVOID (choppy)"⟩
  else if permission = some ("FAVORABLE") ∧
      signal.confidence = Confidence.MEDIUM then
    envPhaseStage signal.direction Confidence.HIGH
      (signal.reason ++ "; 0DTE FAVORABLE (volatile)") market_phase iv_context
  else
    envPhaseStage signal.direction signal.confidence signal.reason
      market_phase iv_context

/-- String rendering of a confidence level, as interpolated into the
options-mode reason strings. -/
def confidenceStr : Confidence → String
  | Confidence.LOW => "LOW"
  | Confidence.MEDIUM => "MEDIUM"
  | Confidence.HIGH => "HIGH"

/-- The options-mode gate of `generate_signal` (signals.py lines 136-166),
applied to the post-filter `base_signal`.  `return_5` is the raw value
extracted from the intraday dictionary at the top of `generate_signal`
(`analyze_intraday` supplies it in percent units); `atm_iv = some v` models a
truthy `iv_context` carrying a non-None `atm_iv`. -/
def options_mode_filter (base_signal : Signal) (return_5 : ℚ)
    (atm_iv : Option ℚ) : Signal :=
  -- Filter 1: Only allow HIGH confidence signals for options
  if base_signal.confidence ≠ Confidence.HIGH then
    ⟨SigDir.NONE, Confidence.LOW,
      base_signal.reason ++ "; Options mode: requires HIGH confidence (current: "
        ++ confidenceStr base_signal.confidence ++ ")"⟩
  -- Filter 2: Require minimum move (1%+) for options
  else if |return_5| < 1/100 then
    ⟨SigDir.NONE, Confidence.LOW,
      base_signal.reason ++ "; Options mode: requires 1%+ move (current: "
        ++ toString (return_5 * 100) ++ "%)"⟩
  -- Filter 3: Require minimum IV (12%) for options
  else
    match atm_iv with
    | some v =>
      if v < 12 then
        ⟨SigDir.NONE, Confidence.LOW,
          base_signal.reason ++ "; Options mode: IV too low ("
            ++ toString v ++ "% < 12%)"⟩
      else base_signal
    | none => base_signal

/-! ## `src/backtest/backtest_engine.py` -/

/-- Engine parameters (`BacktestEngine.__init__` plus the three execution-cost
constants the engine reads from `config` although `src/config.py` does not
define them: slippage, commission per contract, max spread filter). -/
structure EngineCfg where
  tp_pct : ℚ
  sl_pct : ℚ
  position_size : ℚ
  use_options : Bool
  options_tp_pct : ℚ
  options_sl_pct : ℚ
  options_contracts : ℕ
  slippage_pct : ℚ
  commission_per_contract : ℚ
  max_spread : ℚ
deriving Repr

/-- The `current_position` dictionary.  Keys present only for options entries
are `Option`-valued, mirroring the `.get(key, default)` reads.
(The bookkeeping keys `theoretical_entry_price` and `0dte_permission`, which
no checked property reads, are omitted.) -/
structure Position where
  direction : PosDir
  entry_price : ℚ
  entry_time : ℚ
  entry_underlying_price : Option ℚ
  entry_option_price : Option ℚ
  strike : Option ℚ
  entry_iv : Option ℚ
  signal_confidence : Confidence
  signal_reason : String
deriving DecidableEq, Repr

/-- A closed trade as appended to `trades`.  `commissions = some c` models the
presence of the 'commissions' key (only the post-block options exit path
writes it).  Fields not read by any checked property (underlying prices,
strike, confidence, reason, permission) are omitted. -/
structure Trade where
  entry_time : ℚ
  exit_time : ℚ
  direction : PosDir
  entry_price : ℚ
  exit_price : ℚ
  pnl : ℚ
  commissions : Option ℚ
  exit_reason : String
deriving DecidableEq, Repr

/-- The `last_stop_loss` cooldown record. -/
structure StopLossRec where
  direction : PosDir
  time : ℚ
deriving DecidableEq, Repr

/-- The mutable state threaded through the bar loop of `run_backtest`
(equity and the equity curve are omitted: no checked property reads them). -/
structure EngineState where
  current_position : Option Position
  trades : List Trade
  last_stop_loss : Option StopLossRec
  last_processed_time : Option ℚ
deriving DecidableEq, Repr

/-- Per-bar context: timestamp, wall-clock time, close, the signal
`generate_signal` produced for this bar, and the day-level
`iv_context.get('vix_level')`. -/
structure BarCtx where
  ts : ℚ
  hh : ℕ
  mm : ℕ
  close : ℚ
  signal : Signal
  vix_level : Option ℚ
deriving Repr

/-- The option pricer the engine calls through `self._get_option_price`
(S, K, T, sigma, side).  Black-Scholes itself is irrelevant to every checked
property, so the engine is parametrised over it. -/
def Pricer : Type := ℚ → ℚ → ℚ → ℚ → OptKind → ℚ

/-- `BacktestEngine._apply_realistic_costs` (lines 72-89). -/
def _apply_realistic_costs (cfg : EngineCfg) (base_price : ℚ)
    (is_entry : Bool) (direction : PosDir) : ℚ :=
  let slippage_adjustment := base_price * cfg.slippage_pct
  if is_entry then
    if direction = PosDir.LONG then base_price + slippage_adjustment
    else base_price - slippage_adjustment
  else
    if direction = PosDir.LONG then base_price - slippage_adjustment
    else base_price + slippage_adjustment

/-- `BacktestEngine._calculate_commission_cost` (lines 91-93). -/
def _calculate_commission_cost (cfg : EngineCfg) (num_contracts : ℕ) : ℚ :=
  num_contracts * cfg.commission_per_contract

/-- `BacktestEngine._check_spread_filter` (lines 95-100). -/
def _check_spread_filter (cfg : EngineCfg) (bid ask : ℚ) : Bool :=
  if bid ≤ 0 ∨ ask ≤ 0 then false
  else decide ((ask - bid) / bid ≤ cfg.max_spread)

/-- `options.py:calculate_option_pnl` (lines 228-243): each contract is 100
shares. -/
def calculate_option_pnl (entry_price exit_price : ℚ) (contracts : ℕ) : ℚ :=
  (exit_price - entry_price) * 100 * contracts

/-- `options.py:get_atm_strike` as the engine calls it — always without an
`option_type` argument, so always the `call` branch: floor to the 1.0 strike
spacing. -/
def get_atm_strike (current_price : ℚ) : ℚ := current_price.floor

/-- `options.py:time_to_expiration_0dte` (lines 203-225). -/
def time_to_expiration_0dte (hh mm : ℕ) : ℚ :=
  let current_time_decimal : ℚ := hh + mm / 60
  let hours_until_exp :=
    if current_time_decimal ≥ 16 then 24 - current_time_decimal + 16
    else 16 - current_time_decimal
  hours_until_exp / (252 * (13/2))

/-- `iv_context.get('vix_level') or 20.0`: Python `or` replaces both `None`
and a falsy `0.0` by the default. -/
def vixOrDefault (vix_level : Option ℚ) : ℚ :=
  match vix_level with
  | some v => if v = 0 then 20 else v
  | none => 20

/-- The options P/L percentage against the stored entry option price
(lines 338 and 489). -/
def options_pnl_pct (entry_option_price current_option_price : ℚ) : ℚ :=
  if entry_option_price > 0 then
    (current_option_price - entry_option_price) / entry_option_price
  else 0

/-- The shares P/L percentage (lines 385-388 and 541-544). -/
def shares_pnl_pct (direction : PosDir) (entry_price current_price : ℚ) : ℚ :=
  if direction = PosDir.LONG then (current_price - entry_price) / entry_price
  else (entry_price - current_price) / entry_price

/-- Exit decision of the post-block options path (lines 340-346):
TP, elif SL, elif `time_str >= config.SESSION_END` → EOD. -/
def exit_reason_block_options (cfg : EngineCfg) (pnl_pct : ℚ) (tmin : ℕ) :
    Option String :=
  if pnl_pct ≥ cfg.options_tp_pct then some ("TP")
  else if pnl_pct ≤ -cfg.options_sl_pct then some ("SL")
  else if tmin ≥ config.SESSION_END then some ("EOD")
  else none

/-- Exit decision of the post-block shares path (lines 390-396): same
elif chain with the shares thresholds. -/
def exit_reason_block_shares (cfg : EngineCfg) (pnl_pct : ℚ) (tmin : ℕ) :
    Option String :=
  if pnl_pct ≥ cfg.tp_pct then some ("TP")
  else if pnl_pct ≤ -cfg.sl_pct then some ("SL")
  else if tmin ≥ config.SESSION_END then some ("EOD")
  else none

/-- Exit decision of the main options path (lines 497-503):
TP, elif SL, elif `time_str >= "16:00"` → EOD. -/
def exit_reason_main_options (cfg : EngineCfg) (pnl_pct : ℚ) (tmin : ℕ) :
    Option String :=
  if pnl_pct ≥ cfg.options_tp_pct then some ("TP")
  else if pnl_pct ≤ -cfg.options_sl_pct then some ("SL")
  else if tmin ≥ 16 * 60 then some ("EOD")
  else none

/-- Exit decision of the main shares path (lines 547-555).  Note the source
uses a SEPARATE `if time_str >= config.SESSION_END` after the TP/SL chain, so
there the EOD assignment overrides an already-matched TP or SL (the branch is
unreachable: this path only runs on bars before `BLOCK_TRADE_AFTER`). -/
def exit_reason_main_shares (cfg : EngineCfg) (pnl_pct : ℚ) (tmin : ℕ) :
    Option String :=
  let r := if pnl_pct ≥ cfg.tp_pct then some ("TP")
    else if pnl_pct ≤ -cfg.sl_pct then some ("SL")
    else none
  if tmin ≥ config.SESSION_END then some ("EOD") else r

/-- The exit priority in the words of the spec: take-profit, then stop-loss,
then time-based forced exit; first match wins (refinement reference for the
code-side decision functions above). -/
def specExitPriority (tp sl pnl_pct : ℚ) (time_exit : Bool) : Option String :=
  if pnl_pct ≥ tp then some ("TP")
  else if pnl_pct ≤ -sl then some ("SL")
  else if time_exit then some ("EOD")
  else none

/-- The post-block exit handling (lines 308-424): bars at or after
`BLOCK_TRADE_AFTER` process exits only.  The options branch applies exit
slippage and subtracts commissions; the shares branch does neither.
Neither branch records a stop-loss cooldown. -/
def blockExitPhase (cfg : EngineCfg) (pricer : Pricer) (st : EngineState)
    (b : BarCtx) : EngineState :=
  match st.current_position with
  | none => st
  | some p =>
    let tmin := b.hh * 60 + b.mm
    if cfg.use_options then
      let strike := p.strike.getD (get_atm_strike b.close)
      let kind := if p.direction = PosDir.LONG then OptKind.call else OptKind.put
      let T := time_to_expiration_0dte b.hh b.mm
      let sigma := p.entry_iv.getD (vixOrDefault b.vix_level / 100)
      let current_option_price := pricer b.close strike T sigma kind
      let entry_option_price := p.entry_option_price.getD p.entry_price
      let pnl_pct := options_pnl_pct entry_option_price current_option_price
      match exit_reason_block_options cfg pnl_pct tmin with
      | some reason =>
        let exit_option_price :=
          _apply_realistic_costs cfg current_option_price false p.direction
        let commission_cost := _calculate_commission_cost cfg cfg.options_contracts
        let pnl := calculate_option_pnl entry_option_price exit_option_price
          cfg.options_contracts - commission_cost
        { st with
          current_position := none,
          trades := st.trades ++ [⟨p.entry_time, b.ts, p.direction,
            entry_option_price, exit_option_price, pnl,
            some commission_cost, reason⟩] }
      | none => st
    else
      let pnl_pct := shares_pnl_pct p.direction p.entry_price b.close
      match exit_reason_block_shares cfg pnl_pct tmin with
      | some reason =>
        let pnl :=
          if p.direction = PosDir.LONG then
            (b.close - p.entry_price) * cfg.position_size
          else (p.entry_price - b.close) * cfg.position_size
        { st with
          current_position := none,
          trades := st.trades ++ [⟨p.entry_time, b.ts, p.direction,
            p.entry_price, b.close, pnl, none, reason⟩] }
      | none => st

/-- The main-path exit handling (lines 461-586), for bars before
`BLOCK_TRADE_AFTER`.  The options branch subtracts no commission and applies
no exit slippage; stop-loss exits record the cooldown. -/
def mainExitPhase (cfg : EngineCfg) (pricer : Pricer) (st : EngineState)
    (b : BarCtx) : EngineState :=
  match st.current_position with
  | none => st
  | some p =>
    let tmin := b.hh * 60 + b.mm
    if cfg.use_options then
      let strike := p.strike.getD (get_atm_strike b.close)
      let kind := if p.direction = PosDir.LONG then OptKind.call else OptKind.put
      let T := time_to_expiration_0dte b.hh b.mm
      let sigma := p.entry_iv.getD (vixOrDefault b.vix_level / 100)
      let current_option_price := pricer b.close strike T sigma kind
      let entry_option_price := p.entry_option_price.getD p.entry_price
      let pnl_pct := options_pnl_pct entry_option_price current_option_price
      match exit_reason_main_options cfg pnl_pct tmin with
      | some reason =>
        let pnl := calculate_option_pnl entry_option_price
          current_option_price cfg.options_contracts
        { st with
          current_position := none,
          trades := st.trades ++ [⟨p.entry_time, b.ts, p.direction,
            entry_option_price, current_option_price, pnl, none, reason⟩],
          last_stop_loss := if reason = "SL" then some ⟨p.direction, b.ts⟩
            else st.last_stop_loss }
      | none => st
    else
      let pnl_pct := shares_pnl_pct p.direction p.entry_price b.close
      match exit_reason_main_shares cfg pnl_pct tmin with
      | some reason =>
        let pnl :=
          if p.direction = PosDir.LONG then
            (b.close - p.entry_price) * cfg.position_size
          else (p.entry_price - b.close) * cfg.position_size
        { st with
          current_position := none,
          trades := st.trades ++ [⟨p.entry_time, b.ts, p.direction,
            p.entry_price, b.close, pnl, none, reason⟩],
          last_stop_loss := if reason = "SL" then some ⟨p.direction, b.ts⟩
            else st.last_stop_loss }
      | none => st

/-- The cooldown check of the entry block (lines 590-599). -/
def cooldown_active (last_stop_loss : Option StopLossRec) (sig : Signal)
    (ts : ℚ) : Bool :=
  match last_stop_loss with
  | none => false
  | some l =>
    let time_since_stop := ts - l.time
    let same_direction :=
      (sig.direction = SigDir.CALL ∧ l.direction = PosDir.LONG) ∨
      (sig.direction = SigDir.PUT ∧ l.direction = PosDir.SHORT)
    decide (same_direction ∧
      time_since_stop < config.BACKTEST_REENTRY_COOLDOWN_MINUTES)

/-- A candidate options entry (lines 605-704, one side): price the option,
synthesise the bid/ask spread, apply the spread filter (`none` = the `continue`
that skips the entry), then pay slippage on the touched side. -/
def optionsEntry (cfg : EngineCfg) (pricer : Pricer) (b : BarCtx)
    (kind : OptKind) (direction : PosDir) : Option Position :=
  let strike := get_atm_strike b.close
  let T := time_to_expiration_0dte b.hh b.mm
  let sigma := vixOrDefault b.vix_level / 100
  let theoretical_price := pricer b.close strike T sigma kind
  let spread_pct := max (2/100) (min (10/100) (theoretical_price * (1/2)))
  let bid_price := theoretical_price * (1 - spread_pct / 2)
  let ask_price := theoretical_price * (1 + spread_pct / 2)
  if ¬ _check_spread_filter cfg bid_price ask_price then none
  else
    let base := if direction = PosDir.LONG then ask_price else bid_price
    let entry_option_price := _apply_realistic_costs cfg base true direction
    some ⟨direction, entry_option_price, b.ts, some b.close,
      some entry_option_price, some strike, some sigma,
      b.signal.confidence, b.signal.reason⟩

/-- The entry block (lines 588-724): runs only when no position is open;
options mode requires direction + HIGH confidence, shares mode requires
direction + MEDIUM-or-HIGH confidence. -/
def entryPhase (cfg : EngineCfg) (pricer : Pricer) (st : EngineState)
    (b : BarCtx) : EngineState :=
  match st.current_position with
  | some _ => st
  | none =>
    if cooldown_active st.last_stop_loss b.signal b.ts then st
    else if cfg.use_options then
      if b.signal.direction = SigDir.CALL ∧
          b.signal.confidence = Confidence.HIGH then
        { st with current_position :=
            optionsEntry cfg pricer b OptKind.call PosDir.LONG }
      else if b.signal.direction = SigDir.PUT ∧
          b.signal.confidence = Confidence.HIGH then
        { st with current_position :=
            optionsEntry cfg pricer b OptKind.put PosDir.SHORT }
      else st
    else
      if b.signal.direction = SigDir.CALL ∧
          (b.signal.confidence = Confidence.MEDIUM ∨
           b.signal.confidence = Confidence.HIGH) then
        { st with current_position := some ⟨PosDir.LONG, b.close, b.ts,
            none, none, none, none, b.signal.confidence, b.signal.reason⟩ }
      else if b.signal.direction = SigDir.PUT ∧
          (b.signal.confidence = Confidence.MEDIUM ∨
           b.signal.confidence = Confidence.HIGH) then
        { st with current_position := some ⟨PosDir.SHORT, b.close, b.ts,
            none, none, none, none, b.signal.confidence, b.signal.reason⟩ }
      else st

/-- One iteration of the bar loop (lines 274-730): skip bars before
`SESSION_START` and strictly after 16:00; otherwise record the bar as
processed, then either run post-block exit handling (at/after
`BLOCK_TRADE_AFTER`) or the main exit check followed by the entry check. -/
def processBar (cfg : EngineCfg) (pricer : Pricer) (st : EngineState)
    (b : BarCtx) : EngineState :=
  let tmin := b.hh * 60 + b.mm
  if tmin < config.SESSION_START then st
  else if tmin > 16 * 60 then st
  else
    let st1 := { st with last_processed_time := some b.ts }
    if tmin ≥ config.BLOCK_TRADE_AFTER then blockExitPhase cfg pricer st1 b
    else entryPhase cfg pricer (mainExitPhase cfg pricer st1 b) b

/-- The end-of-day forced close (lines 762-854): any still-open position is
converted into an EOD trade at the last processed bar, falling back to the
final bar of the frame when no bar was processed.  `bars = []` is unreachable
(an empty day is skipped before the loop). -/
def eodClose (cfg : EngineCfg) (pricer : Pricer) (st : EngineState)
    (bars : List BarCtx) (vix_level : Option ℚ) : EngineState :=
  match st.current_position, bars.getLast? with
  | some p, some lastBar =>
    let exit_time :=
      match st.last_processed_time with
      | some t => t
      | none => lastBar.ts
    let exitBar :=
      match st.last_processed_time with
      | some t => (bars.find? (fun (bb : BarCtx) => decide (bb.ts = t))).getD lastBar
      | none => lastBar
    let exit_underlying_price := exitBar.close
    if cfg.use_options then
      let strike := p.strike.getD (get_atm_strike exit_underlying_price)
      let kind := if p.direction = PosDir.LONG then OptKind.call else OptKind.put
      let T := if exitBar.hh ≥ 16 then 0
        else time_to_expiration_0dte exitBar.hh exitBar.mm
      let sigma := p.entry_iv.getD (vixOrDefault vix_level / 100)
      let exit_option_price :=
        pricer exit_underlying_price strike T sigma kind
      let entry_option_price := p.entry_option_price.getD p.entry_price
      let pnl := calculate_option_pnl entry_option_price exit_option_price
        cfg.options_contracts
      { st with
        current_position := none,
        trades := st.trades ++ [⟨p.entry_time, exit_time, p.direction,
          entry_option_price, exit_option_price, pnl, none, "EOD"⟩] }
    else
      let pnl :=
        if p.direction = PosDir.LONG then
          (exit_underlying_price - p.entry_price) * cfg.position_size
        else (p.entry_price - exit_underlying_price) * cfg.position_size
      { st with
        current_position := none,
        trades := st.trades ++ [⟨p.entry_time, exit_time, p.direction,
          p.entry_price, exit_underlying_price, pnl, none, "EOD"⟩] }
  | _, _ => st

/-- One trading day of `run_backtest`: reset `last_processed_time`, fold the
bar loop, then force-close any remaining position. -/
def processDay (cfg : EngineCfg) (pricer : Pricer) (st : EngineState)
    (bars : List BarCtx) (vix_level : Option ℚ) : EngineState :=
  let st0 := { st with last_processed_time := none }
  eodClose cfg pricer (bars.foldl (processBar cfg pricer) st0) bars vix_level

/-! ## Concrete sample inputs (used by witness and counterexample theorems) -/

/-- A constant option pricer (the pricer value is irrelevant to the checked
control-flow properties). -/
def constPricer (q : ℚ) : Pricer := fun _ _ _ _ _ => q

/-- Shares-mode engine configuration with the `config.py` defaults. -/
def sampleCfgShares : EngineCfg :=
  ⟨7/1000, 3/1000, 100, false, 2/10, 5/10, 1, 0, 0, 1/10⟩

/-- Options-mode engine configuration with the `config.py` defaults, zero
slippage and a 0.65 commission per contract. -/
def sampleCfgOptions : EngineCfg :=
  ⟨7/1000, 3/1000, 100, true, 2/10, 5/10, 1, 0, 65/100, 1/10⟩

/-- An open LONG options position entered at time 0 with option entry price 1. -/
def samplePos : Position :=
  ⟨PosDir.LONG, 1, 0, some 100, some 1, some 100, some (1/5),
    Confidence.HIGH, "r"⟩

/-- A 10:00 bar with close 100 carrying the given signal. -/
def sampleBar (sig : Signal) : BarCtx := ⟨600, 10, 0, 100, sig, some 20⟩

/-- A 15:30 bar (inside the post-block exit window). -/
def sampleBarLate (sig : Signal) : BarCtx := ⟨930, 15, 30, 100, sig, some 20⟩

/-- The NONE/LOW signal. -/
def sigNone : Signal := ⟨SigDir.NONE, Confidence.LOW, ""⟩

/-- A directional HIGH-confidence signal. -/
def sigCallHigh : Signal := ⟨SigDir.CALL, Confidence.HIGH, "s"⟩

/-- A flat bar (constant price 100). -/
def flatBar : ChopBar := ⟨100, 100, 100⟩

/-- Twelve flat bars: enough for chop detection, yielding chop score 2
(flat EMAs + tight VWAP band; ATR is still NaN below 14 bars). -/
def flatBars12 : List ChopBar :=
  [flatBar, flatBar, flatBar, flatBar, flatBar, flatBar,
   flatBar, flatBar, flatBar, flatBar, flatBar, flatBar]

/-- A bar closing slightly above the 100 VWAP. -/
def oscUp : ChopBar := ⟨1001/10, 999/10, 1001/10⟩

/-- A bar closing slightly below the 100 VWAP. -/
def oscDown : ChopBar := ⟨1001/10, 999/10, 999/10⟩

/-- Twelve bars oscillating around VWAP: 11 VWAP crosses, flat EMAs and a
tight VWAP band give chop score 3 (ATR is still NaN below 14 bars). -/
def oscBars12 : List ChopBar :=
  [oscUp, oscDown, oscUp, oscDown, oscUp, oscDown,
   oscUp, oscDown, oscUp, oscDown, oscUp, oscDown]

/-- A constant indicator series of length 12. -/
def flatSeries12 : List ℚ :=
  [100, 100, 100, 100, 100, 100, 100, 100, 100, 100, 100, 100]

/-! ## Helper lemmas -/

lemma exit_reason_block_options_mem {cfg : EngineCfg} {pnl : ℚ} {tmin : ℕ}
    {r : String} (h : exit_reason_block_options cfg pnl tmin = some r) :
    r = "TP" ∨ r = "SL" ∨ r = "EOD" := by
  unfold exit_reason_block_options at h
  split_ifs at h <;> simp_all

lemma exit_reason_block_shares_mem {cfg : EngineCfg} {pnl : ℚ} {tmin : ℕ}
    {r : String} (h : exit_reason_block_shares cfg pnl tmin = some r) :
    r = "TP" ∨ r = "SL" ∨ r = "EOD" := by
  unfold exit_reason_block_shares at h
  split_ifs at h <;> simp_all

lemma exit_reason_main_options_mem {cfg : EngineCfg} {pnl : ℚ} {tmin : ℕ}
    {r : String} (h : exit_reason_main_options cfg pnl tmin = some r) :
    r = "TP" ∨ r = "SL" ∨ r = "EOD" := by
  unfold exit_reason_main_options at h
  split_ifs at h <;> simp_all

lemma exit_reason_main_shares_mem {cfg : EngineCfg} {pnl : ℚ} {tmin : ℕ}
    {r : String} (h : exit_reason_main_shares cfg pnl tmin = some r) :
    r = "TP" ∨ r = "SL" ∨ r = "EOD" := by
  unfold exit_reason_main_shares at h
  split_ifs at h <;> simp_all

lemma data_pref (r t : String) : r.data <+: (r ++ t).data :=
  ⟨t.data, rfl⟩

lemma envIvStage_reason (d : SigDir) (c : Confidence) (r : String)
    (ivc : Option IvContext) : r.data <+: (envIvStage d c r ivc).reason.data := by
  unfold envIvStage
  rcases ivc with _ | ctx
  · exact List.prefix_rfl
  · dsimp only
    split
    · split_ifs <;> first
        | exact List.prefix_rfl
        | exact data_pref r _
    · exact List.prefix_rfl

lemma envPhaseStage_reason (d : SigDir) (c : Confidence) (r : String)
    (phase : Option MarketPhase) (ivc : Option IvContext) :
    r.data <+: (envPhaseStage d c r phase ivc).reason.data := by
  unfold envPhaseStage
  rcases phase with _ | ph
  · exact envIvStage_reason d c r ivc
  · dsimp only
    split_ifs
    · exact (data_pref r _).trans ((data_pref _ _).trans (data_pref _ _))
    · exact envIvStage_reason d c r ivc

/-! ## Claim theorems -/

/-- C5: for every input of `get_0dte_permission` where the supplied
volatility-index level is at most 15, the returned status is AVOID,
for all values of trend, gap percentage and range percentage. -/
theorem hard_deck_avoid (trend : String) (gap_pct range_pct v : ℚ)
    (h : v ≤ 15) :
    (get_0dte_permission trend gap_pct range_pct (some v)).status = "AVOID" := by
  unfold get_0dte_permission
  simp [h]

/-- Witness for C5 at trend "Bullish", gap 5, range 5, VIX 12. -/
theorem hard_deck_avoid_witness :
    (12 : ℚ) ≤ 15 ∧
      (get_0dte_permission ("Bullish") 5 5 (some 12)).status = "AVOID" :=
  ⟨by norm_num, hard_deck_avoid ("Bullish") 5 5 12 (by norm_num)⟩

/-- C8: on a non-empty price series with a previous-session seed, the first
EMA value of `calculate_ema` equals `alpha * price_0 + (1 - alpha) * seed`
with `alpha = 2 / (period + 1)`, whereas the unseeded default gives
`price_0` itself. -/
theorem ema_seeded_first_bar (period s p : ℚ) (rest : List ℚ) :
    (calculate_ema (p :: rest) period (some s)).head? =
      some (2 / (period + 1) * p + (1 - 2 / (period + 1)) * s) ∧
    (calculate_ema (p :: rest) period none).head? = some p := by
  constructor
  · simp [calculate_ema, emaFrom]
  · simp [calculate_ema, ewmAdjustFalse]

/-- C6 (evaluating the code at the failing input): `calculate_returns`
produces 5-bar returns in percent units, so a 0.5% five-bar move is the value
1/2; the options-mode gate of `generate_signal` compares that value against
0.01 and therefore lets it through, although the gate's own comment and
reason string require a 1%+ move. -/
theorem options_gate_return_units :
    latest_return_5 [100, 100, 100, 100, 100, 201/2] = 1/2 ∧
    options_mode_filter ⟨SigDir.CALL, Confidence.HIGH, "r"⟩
        (latest_return_5 [100, 100, 100, 100, 100, 201/2]) (some 20) =
      ⟨SigDir.CALL, Confidence.HIGH, "r"⟩ ∧
    (1/2 : ℚ) < 1 := by
  have h5 : latest_return_5 [100, 100, 100, 100, 100, 201/2] = 1/2 := by
    norm_num [latest_return_5, calculate_returns,
      (show List.range 6 = [0, 1, 2, 3, 4, 5] from rfl)]
  refine ⟨h5, ?_, by norm_num⟩
  rw [h5]
  norm_num [options_mode_filter]
  intro h
  rw [show |(1 : ℚ)/2| = 1/2 from abs_of_pos (by norm_num)] at h
  norm_num at h

/-- C7 counterexample: twelve flat bars give chop score exactly 2, yet
`apply_chop_filter` leaves a NONE-direction signal completely untouched —
its MEDIUM confidence is not downgraded to LOW. -/
theorem chop_score_two_counterexample :
    (detect_chop flatBars12 flatSeries12 flatSeries12
        flatSeries12).chop_score = 2 ∧
    apply_chop_filter ⟨SigDir.NONE, Confidence.MEDIUM, "x"⟩
        (detect_chop flatBars12 flatSeries12 flatSeries12 flatSeries12) =
      ⟨SigDir.NONE, Confidence.MEDIUM, "x"⟩ ∧
    Confidence.MEDIUM ≠ Confidence.LOW := by
  have hd : detect_chop flatBars12 flatSeries12 flatSeries12 flatSeries12 =
      ⟨true, ["EMAs are flat (no trend)", "Price range tight around VWAP"], 2⟩ := by
    norm_num [detect_chop, flatBars12, flatSeries12, flatBar,
      count_vwap_crosses, check_ema_flat, calculate_atr, check_vwap_range,
      transitions, config.CHOP_VWAP_CROSSES_THRESHOLD,
      config.CHOP_EMA_FLAT_THRESHOLD, config.CHOP_ATR_THRESHOLD,
      config.CHOP_VWAP_RANGE_THRESHOLD]
  rw [hd]
  refine ⟨rfl, by decide, by decide⟩

/-- C7 (amended): `detect_chop` on fewer than 12 bars reports score 0 and
not-chop; it reports chop exactly when the score is at least 2; and for chop
results satisfying that invariant, `apply_chop_filter` yields direction NONE
whenever the score is at least 3, downgrades a DIRECTIONAL signal to LOW
confidence (appending the chop reason) when the score is exactly 2, returns a
NONE-direction signal completely unchanged whatever the chop result (in
particular whenever chop is detected, at any score), and returns the signal
unchanged when the score is below 2. -/
theorem chop_policy (bars : List ChopBar) (vwap ema_fast ema_slow : List ℚ)
    (sig : Signal) (res : ChopResult)
    (hres : res.is_chop = decide (res.chop_score ≥ 2)) :
    (bars.length < 12 → detect_chop bars vwap ema_fast ema_slow = ⟨false, [], 0⟩) ∧
    ((detect_chop bars vwap ema_fast ema_slow).is_chop = true ↔
      (detect_chop bars vwap ema_fast ema_slow).chop_score ≥ 2) ∧
    (res.chop_score ≥ 3 → (apply_chop_filter sig res).direction = SigDir.NONE) ∧
    (res.chop_score = 2 → sig.direction ≠ SigDir.NONE →
      apply_chop_filter sig res =
        ⟨sig.direction, Confidence.LOW, sig.reason ++ "; Chop detected (" ++
          String.intercalate ", " res.reasons ++ ")"⟩) ∧
    (sig.direction = SigDir.NONE → apply_chop_filter sig res = sig) ∧
    (res.chop_score < 2 → apply_chop_filter sig res = sig) := by
  refine ⟨?_, ?_, ?_, ?_, ?_, ?_⟩
  · intro h
    unfold detect_chop
    simp [h]
  · by_cases h : bars.length < 12 <;> simp [detect_chop, h]
  · intro h3
    have hc : res.is_chop = true := by rw [hres]; simp; omega
    unfold apply_chop_filter
    by_cases hd : sig.direction = SigDir.NONE <;> simp [hc, hd, h3]
  · intro h2 hd
    have hc : res.is_chop = true := by rw [hres]; simp; omega
    unfold apply_chop_filter
    simp [hc, hd, h2]
  · intro hd
    unfold apply_chop_filter
    by_cases hc : res.is_chop <;> simp [hc, hd]
  · intro hlt
    have hc : res.is_chop = false := by rw [hres]; simp; omega
    unfold apply_chop_filter
    simp [hc]

/-- Witness for C7 at a concrete score-3 chop result and directional signal. -/
theorem chop_policy_witness :
    (apply_chop_filter ⟨SigDir.CALL, Confidence.HIGH, "x"⟩
      ⟨true, [], 3⟩).direction = SigDir.NONE :=
  (chop_policy [] [] [] [] ⟨SigDir.CALL, Confidence.HIGH, "x"⟩
    ⟨true, [], 3⟩ (by decide)).2.2.1 (by decide)

set_option maxRecDepth 4000 in
/-- C9 counterexample: the strong-chop branch of `apply_chop_filter` REPLACES
the reason string — on twelve oscillating bars (chop score 3) the input reason
"Bullish trend" does not survive as a substring of the output reason. -/
theorem chop_reason_replaced_counterexample :
    (detect_chop oscBars12 flatSeries12 flatSeries12
        flatSeries12).chop_score = 3 ∧
    ¬ (("Bullish trend") : String).data <:+:
      (apply_chop_filter ⟨SigDir.CALL, Confidence.HIGH, "Bullish trend"⟩
        (detect_chop oscBars12 flatSeries12 flatSeries12
          flatSeries12)).reason.data := by
  have hd : detect_chop oscBars12 flatSeries12 flatSeries12 flatSeries12 =
      ⟨true, ["VWAP crossed " ++ toString (11 : ℕ) ++ " times in last hour",
        "EMAs are flat (no trend)", "Price range tight around VWAP"], 3⟩ := by
    norm_num [detect_chop, oscBars12, flatSeries12, oscUp, oscDown,
      count_vwap_crosses, check_ema_flat, calculate_atr, check_vwap_range,
      transitions, config.CHOP_VWAP_CROSSES_THRESHOLD,
      config.CHOP_EMA_FLAT_THRESHOLD, config.CHOP_ATR_THRESHOLD,
      config.CHOP_VWAP_RANGE_THRESHOLD, abs_neg,
      (show |(1 : ℚ)/10| = 1/10 from abs_of_pos (by norm_num))]
  rw [hd]
  refine ⟨rfl, by decide⟩

/-- C9 (amended): the time-of-day filter, the environment filter and the
options-mode gate always append to the signal's reason string (the input
reason is a prefix of the output reason), and so does the chop filter —
EXCEPT in its strong-chop branch (chop detected, score ≥ 3, directional
signal), which replaces the reason. -/
theorem reason_audit_trail (sig : Signal) (hh mm : ℕ)
    (permission : Option String) (phase : Option MarketPhase)
    (ivc : Option IvContext) (return_5 : ℚ) (atm_iv : Option ℚ)
    (res : ChopResult) :
    sig.reason.data <+: (apply_time_filter sig hh mm).reason.data ∧
    sig.reason.data <+:
      (apply_environment_filters sig permission phase ivc).reason.data ∧
    sig.reason.data <+: (options_mode_filter sig return_5 atm_iv).reason.data ∧
    (¬ (res.is_chop = true ∧ res.chop_score ≥ 3 ∧
        sig.direction ≠ SigDir.NONE) →
      sig.reason.data <+: (apply_chop_filter sig res).reason.data) := by
  refine ⟨?_, ?_, ?_, ?_⟩
  · simp only [apply_time_filter]
    split_ifs <;> exact (data_pref _ _).trans (data_pref _ _)
  · unfold apply_environment_filters
    split_ifs
    · exact data_pref _ _
    · exact (data_pref _ _).trans (envPhaseStage_reason _ _ _ _ _)
    · exact envPhaseStage_reason _ _ _ _ _
  · unfold options_mode_filter
    split_ifs
    · exact (data_pref _ _).trans ((data_pref _ _).trans (data_pref _ _))
    · exact (data_pref _ _).trans ((data_pref _ _).trans (data_pref _ _))
    · rcases atm_iv with _ | v
      · exact List.prefix_rfl
      · simp only
        split_ifs
        · exact (data_pref _ _).trans ((data_pref _ _).trans (data_pref _ _))
        · exact List.prefix_rfl
  · intro hno
    unfold apply_chop_filter
    by_cases h1 : res.is_chop
    · by_cases h2 : sig.direction = SigDir.NONE
      · simp only [h1, not_true, if_false, h2, if_true]
        exact List.prefix_rfl
      · by_cases h3 : res.chop_score ≥ 3
        · exact absurd ⟨h1, h3, h2⟩ hno
        · simp only [h1, not_true, if_false, h2, if_true, h3]
          exact (data_pref _ _).trans ((data_pref _ _).trans (data_pref _ _))
    · simp only [h1, not_false_iff, if_true]
      exact List.prefix_rfl

/-- Witness for C9 with a no-chop result discharging the hypothesis. -/
theorem reason_audit_trail_witness :
    (("x") : String).data <+:
      (apply_chop_filter ⟨SigDir.CALL, Confidence.HIGH, "x"⟩
        ⟨false, [], 0⟩).reason.data :=
  (reason_audit_trail ⟨SigDir.CALL, Confidence.HIGH, "x"⟩ 10 0 none none none
    0 none ⟨false, [], 0⟩).2.2.2 (by decide)

/-- C2: exit conditions are evaluated in the fixed priority take-profit,
then stop-loss, then time-based forced exit (first match wins; one exit
reason per trade) — for the post-block options and shares paths, the main
options path, and (on the bars it actually runs on, i.e. before
`BLOCK_TRADE_AFTER`) the main shares path; in particular a bar satisfying
both the TP and the SL thresholds records 'TP'. -/
theorem exit_priority_spec (cfg : EngineCfg) (pnl_pct : ℚ) (tmin : ℕ) :
    exit_reason_block_options cfg pnl_pct tmin =
      specExitPriority cfg.options_tp_pct cfg.options_sl_pct pnl_pct
        (decide (tmin ≥ config.SESSION_END)) ∧
    exit_reason_block_shares cfg pnl_pct tmin =
      specExitPriority cfg.tp_pct cfg.sl_pct pnl_pct
        (decide (tmin ≥ config.SESSION_END)) ∧
    exit_reason_main_options cfg pnl_pct tmin =
      specExitPriority cfg.options_tp_pct cfg.options_sl_pct pnl_pct
        (decide (tmin ≥ 16 * 60)) ∧
    (tmin < config.BLOCK_TRADE_AFTER →
      exit_reason_main_shares cfg pnl_pct tmin =
        specExitPriority cfg.tp_pct cfg.sl_pct pnl_pct
          (decide (tmin ≥ config.SESSION_END))) ∧
    (pnl_pct ≥ cfg.options_tp_pct → pnl_pct ≤ -cfg.options_sl_pct →
      exit_reason_block_options cfg pnl_pct tmin = some ("TP") ∧
      exit_reason_main_options cfg pnl_pct tmin = some ("TP")) ∧
    (pnl_pct ≥ cfg.tp_pct → pnl_pct ≤ -cfg.sl_pct →
      exit_reason_block_shares cfg pnl_pct tmin = some ("TP") ∧
      (tmin < config.BLOCK_TRADE_AFTER →
        exit_reason_main_shares cfg pnl_pct tmin = some ("TP"))) := by
  refine ⟨?_, ?_, ?_, ?_, ?_, ?_⟩
  · unfold exit_reason_block_options specExitPriority
    simp only [decide_eq_true_eq]
  · unfold exit_reason_block_shares specExitPriority
    simp only [decide_eq_true_eq]
  · unfold exit_reason_main_options specExitPriority
    simp only [decide_eq_true_eq]
  · intro hblk
    have hne : ¬ tmin ≥ config.SESSION_END := by
      simp only [config.SESSION_END, config.BLOCK_TRADE_AFTER] at *
      omega
    unfold exit_reason_main_shares specExitPriority
    simp only [decide_eq_true_eq, hne]
    split_ifs <;> first | rfl | contradiction
  · intro h1 h2
    constructor
    · unfold exit_reason_block_options
      simp [h1]
    · unfold exit_reason_main_options
      simp [h1]
  · intro h1 h2
    have hne : ∀ m : ℕ, m < config.BLOCK_TRADE_AFTER → ¬ m ≥ config.SESSION_END := by
      simp only [config.SESSION_END, config.BLOCK_TRADE_AFTER]
      omega
    refine ⟨?_, fun hblk => ?_⟩
    · unfold exit_reason_block_shares
      simp [h1]
    · unfold exit_reason_main_shares
      simp [h1, hne tmin hblk]

/-- Witness for C2 on the main shares path at 10:00 with a TP-sized move. -/
theorem exit_priority_spec_witness :
    exit_reason_main_shares sampleCfgShares (1/100) 600 =
      specExitPriority sampleCfgShares.tp_pct sampleCfgShares.sl_pct (1/100)
        (decide ((600 : ℕ) ≥ config.SESSION_END)) :=
  (exit_priority_spec sampleCfgShares (1/100) 600).2.2.2.1 (by decide)

/-- C10: in shares mode, with no open position and no active cooldown, the
entry check opens a position exactly when the signal direction is CALL or PUT
with MEDIUM or HIGH confidence; a LOW-confidence directional signal never
opens a shares position, and the entry check appends no trade. -/
theorem shares_entry_iff (cfg : EngineCfg) (pricer : Pricer)
    (st : EngineState) (b : BarCtx) (hsh : cfg.use_options = false)
    (hflat : st.current_position = none)
    (hcool : cooldown_active st.last_stop_loss b.signal b.ts = false) :
    ((entryPhase cfg pricer st b).current_position.isSome = true ↔
      (b.signal.direction = SigDir.CALL ∨ b.signal.direction = SigDir.PUT) ∧
      (b.signal.confidence = Confidence.MEDIUM ∨
        b.signal.confidence = Confidence.HIGH)) ∧
    (b.signal.confidence = Confidence.LOW →
      (entryPhase cfg pricer st b).current_position = none) ∧
    (entryPhase cfg pricer st b).trades = st.trades := by
  cases hd : b.signal.direction <;> cases hc : b.signal.confidence <;>
    simp [entryPhase, hflat, hcool, hsh, hd, hc]

/-- Witness for C10: a CALL/HIGH signal opens a shares position from flat. -/
theorem shares_entry_iff_witness :
    ((entryPhase sampleCfgShares (constPricer 2) ⟨none, [], none, none⟩
        (sampleBar sigCallHigh)).current_position.isSome = true ↔
      ((sampleBar sigCallHigh).signal.direction = SigDir.CALL ∨
        (sampleBar sigCallHigh).signal.direction = SigDir.PUT) ∧
      ((sampleBar sigCallHigh).signal.confidence = Confidence.MEDIUM ∨
        (sampleBar sigCallHigh).signal.confidence = Confidence.HIGH)) ∧
    ((sampleBar sigCallHigh).signal.confidence = Confidence.LOW →
      (entryPhase sampleCfgShares (constPricer 2) ⟨none, [], none, none⟩
        (sampleBar sigCallHigh)).current_position = none) ∧
    (entryPhase sampleCfgShares (constPricer 2) ⟨none, [], none, none⟩
        (sampleBar sigCallHigh)).trades =
      (⟨none, [], none, none⟩ : EngineState).trades :=
  shares_entry_iff sampleCfgShares (constPricer 2) ⟨none, [], none, none⟩
    (sampleBar sigCallHigh) rfl rfl rfl

/-- C4: whenever a position is still open at the end of a session with a
non-empty bar frame, the forced close clears it and emits exactly one trade
tagged 'EOD', whose exit time is the last processed bar's timestamp, falling
back to the final bar of the frame when no bar was processed — regardless of
where the data was truncated. -/
theorem eod_forced_close (cfg : EngineCfg) (pricer : Pricer)
    (st : EngineState) (bars : List BarCtx) (vix : Option ℚ) (p : Position)
    (lastBar : BarCtx) (hpos : st.current_position = some p)
    (hlast : bars.getLast? = some lastBar) :
    (eodClose cfg pricer st bars vix).current_position = none ∧
    ∃ tr : Trade, (eodClose cfg pricer st bars vix).trades = st.trades ++ [tr] ∧
      tr.exit_reason = "EOD" ∧
      tr.exit_time = st.last_processed_time.getD lastBar.ts ∧
      tr.entry_time = p.entry_time := by
  have hmatch : (match st.last_processed_time with
      | some t => t
      | none => lastBar.ts) = st.last_processed_time.getD lastBar.ts := by
    cases st.last_processed_time <;> rfl
  unfold eodClose
  simp only [hpos, hlast]
  split_ifs <;> exact ⟨rfl, _, rfl, rfl, hmatch, rfl⟩

/-- Witness for C4 with a processed bar at timestamp 600. -/
theorem eod_forced_close_witness :
    (eodClose sampleCfgShares (constPricer 2)
        ⟨some samplePos, [], none, some 600⟩ [sampleBar sigNone]
        none).current_position = none ∧
    ∃ tr : Trade, (eodClose sampleCfgShares (constPricer 2)
        ⟨some samplePos, [], none, some 600⟩ [sampleBar sigNone] none).trades =
      (⟨some samplePos, [], none, some 600⟩ : EngineState).trades ++ [tr] ∧
      tr.exit_reason = "EOD" ∧
      tr.exit_time = (⟨some samplePos, [], none, some 600⟩ :
        EngineState).last_processed_time.getD (sampleBar sigNone).ts ∧
      tr.entry_time = samplePos.entry_time :=
  eod_forced_close sampleCfgShares (constPricer 2)
    ⟨some samplePos, [], none, some 600⟩ [sampleBar sigNone] none samplePos
    (sampleBar sigNone) rfl rfl

/-- C3 counterexample: an options trade closed on the MAIN exit path (before
14:30) has its pnl equal to the raw option price difference × 100 × contracts
with NOTHING subtracted — while the configured commission is
1 × 0.65 ≠ 0.  (The commission subtraction exists only on the post-block
exit path, lines 357-361 of the engine.) -/
theorem main_exit_commission_counterexample :
    (mainExitPhase sampleCfgOptions (constPricer 2)
        ⟨some samplePos, [], none, none⟩ (sampleBar sigNone)).trades =
      [⟨0, 600, PosDir.LONG, 1, 2, 100, none, "TP"⟩] ∧
    (100 : ℚ) = calculate_option_pnl 1 2 sampleCfgOptions.options_contracts ∧
    calculate_option_pnl 1 2 sampleCfgOptions.options_contracts - 100 = 0 ∧
    (0 : ℚ) ≠ (sampleCfgOptions.options_contracts : ℚ) *
      sampleCfgOptions.commission_per_contract := by
  refine ⟨?_, by norm_num [calculate_option_pnl, sampleCfgOptions],
    by norm_num [calculate_option_pnl, sampleCfgOptions],
    by norm_num [sampleCfgOptions]⟩
  norm_num [mainExitPhase, sampleCfgOptions, constPricer, samplePos, sampleBar,
    sigNone, options_pnl_pct, exit_reason_main_options, calculate_option_pnl,
    config.SESSION_END, time_to_expiration_0dte, vixOrDefault, get_atm_strike]

/-- C3 (amended): when an options trade is closed, commission equal to
`options_contracts × commission_per_contract` is subtracted from its pnl (and
recorded under 'commissions') ONLY on the post-block exit path; trades closed
on the main exit path or by the end-of-day forced close carry no commission
and their pnl is the raw recorded price difference × 100 × contracts; with a
zero commission rate, the pnl on every path equals that raw product. -/
theorem options_commission_paths (cfg : EngineCfg) (pricer : Pricer)
    (st : EngineState) (b : BarCtx) (bars : List BarCtx) (vix : Option ℚ)
    (p : Position) (hpos : st.current_position = some p)
    (hopt : cfg.use_options = true) :
    (∀ tr : Trade, (blockExitPhase cfg pricer st b).trades = st.trades ++ [tr] →
      tr.commissions =
        some (_calculate_commission_cost cfg cfg.options_contracts) ∧
      tr.pnl = calculate_option_pnl tr.entry_price tr.exit_price
        cfg.options_contracts -
          _calculate_commission_cost cfg cfg.options_contracts) ∧
    (∀ tr : Trade, (mainExitPhase cfg pricer st b).trades = st.trades ++ [tr] →
      tr.commissions = none ∧
      tr.pnl = calculate_option_pnl tr.entry_price tr.exit_price
        cfg.options_contracts) ∧
    (∀ tr : Trade, (eodClose cfg pricer st bars vix).trades = st.trades ++ [tr] →
      tr.commissions = none ∧
      tr.pnl = calculate_option_pnl tr.entry_price tr.exit_price
        cfg.options_contracts) ∧
    (cfg.commission_per_contract = 0 →
      ∀ tr : Trade, (blockExitPhase cfg pricer st b).trades = st.trades ++ [tr] →
        tr.pnl = calculate_option_pnl tr.entry_price tr.exit_price
          cfg.options_contracts) := by
  have hlen : ∀ tr : Trade, st.trades = st.trades ++ [tr] → False := by
    intro tr htr
    have h := congrArg List.length htr
    simp at h
  have hblock : ∀ tr : Trade,
      (blockExitPhase cfg pricer st b).trades = st.trades ++ [tr] →
      tr.commissions =
        some (_calculate_commission_cost cfg cfg.options_contracts) ∧
      tr.pnl = calculate_option_pnl tr.entry_price tr.exit_price
        cfg.options_contracts -
          _calculate_commission_cost cfg cfg.options_contracts := by
    intro tr htr
    unfold blockExitPhase at htr
    simp only [hpos, hopt, reduceIte] at htr
    revert htr
    split
    · intro htr
      have h3 := List.append_cancel_left htr
      simp only [List.cons.injEq, and_true] at h3
      subst h3
      exact ⟨rfl, rfl⟩
    · intro htr
      exact (hlen tr htr).elim
  have hmain : ∀ tr : Trade,
      (mainExitPhase cfg pricer st b).trades = st.trades ++ [tr] →
      tr.commissions = none ∧
      tr.pnl = calculate_option_pnl tr.entry_price tr.exit_price
        cfg.options_contracts := by
    intro tr htr
    unfold mainExitPhase at htr
    simp only [hpos, hopt, reduceIte] at htr
    revert htr
    split
    · intro htr
      have h3 := List.append_cancel_left htr
      simp only [List.cons.injEq, and_true] at h3
      subst h3
      exact ⟨rfl, rfl⟩
    · intro htr
      exact (hlen tr htr).elim
  have heod : ∀ tr : Trade,
      (eodClose cfg pricer st bars vix).trades = st.trades ++ [tr] →
      tr.commissions = none ∧
      tr.pnl = calculate_option_pnl tr.entry_price tr.exit_price
        cfg.options_contracts := by
    intro tr htr
    unfold eodClose at htr
    simp only [hpos] at htr
    revert htr
    split
    · intro htr
      simp only [hopt, reduceIte] at htr
      have h3 := List.append_cancel_left htr
      simp only [List.cons.injEq, and_true] at h3
      subst h3
      exact ⟨rfl, rfl⟩
    · intro htr
      exact (hlen tr htr).elim
  refine ⟨hblock, hmain, heod, ?_⟩
  intro h0 tr htr
  have h2 := hblock tr htr
  rw [h2.2]
  simp [_calculate_commission_cost, h0]

/-- Witness for C3 on the post-block exit path at 15:30: commission
1 × 0.65 is recorded and subtracted. -/
theorem options_commission_paths_witness :
    (⟨0, 930, PosDir.LONG, 1, 2, 1987/20, some (13/20), "TP"⟩ :
        Trade).commissions =
      some (_calculate_commission_cost sampleCfgOptions
        sampleCfgOptions.options_contracts) ∧
    (⟨0, 930, PosDir.LONG, 1, 2, 1987/20, some (13/20), "TP"⟩ : Trade).pnl =
      calculate_option_pnl
        (⟨0, 930, PosDir.LONG, 1, 2, 1987/20, some (13/20), "TP"⟩ :
          Trade).entry_price
        (⟨0, 930, PosDir.LONG, 1, 2, 1987/20, some (13/20), "TP"⟩ :
          Trade).exit_price sampleCfgOptions.options_contracts -
        _calculate_commission_cost sampleCfgOptions
          sampleCfgOptions.options_contracts :=
  (options_commission_paths sampleCfgOptions (constPricer 2)
      ⟨some samplePos, [], none, none⟩ (sampleBarLate sigNone) [] none
      samplePos rfl rfl).1
    ⟨0, 930, PosDir.LONG, 1, 2, 1987/20, some (13/20), "TP"⟩
    (by norm_num [blockExitPhase, sampleCfgOptions, constPricer, samplePos,
      sampleBarLate, sigNone, options_pnl_pct, exit_reason_block_options,
      calculate_option_pnl, _calculate_commission_cost, _apply_realistic_costs,
      config.SESSION_END, time_to_expiration_0dte, vixOrDefault,
      get_atm_strike])

/-- C1: the engine holds at most one open position — while a position is
open, the entry check changes nothing (a new entry is never opened over an
existing position), and each exit phase either leaves the position and trade
list untouched or clears the position while appending exactly one trade with
exit reason TP, SL or EOD carrying that position's entry time; the end-of-day
close likewise converts a surviving position into exactly one EOD trade. -/
theorem single_open_position (cfg : EngineCfg) (pricer : Pricer)
    (st : EngineState) (b : BarCtx) (bars : List BarCtx) (vix : Option ℚ)
    (p : Position) (lastBar : BarCtx) (hpos : st.current_position = some p)
    (hlast : bars.getLast? = some lastBar) :
    entryPhase cfg pricer st b = st ∧
    ((mainExitPhase cfg pricer st b).current_position = some p ∧
        (mainExitPhase cfg pricer st b).trades = st.trades ∨
      (mainExitPhase cfg pricer st b).current_position = none ∧
        ∃ tr : Trade,
          (mainExitPhase cfg pricer st b).trades = st.trades ++ [tr] ∧
          (tr.exit_reason = "TP" ∨ tr.exit_reason = "SL" ∨
            tr.exit_reason = "EOD") ∧
          tr.entry_time = p.entry_time) ∧
    ((blockExitPhase cfg pricer st b).current_position = some p ∧
        (blockExitPhase cfg pricer st b).trades = st.trades ∨
      (blockExitPhase cfg pricer st b).current_position = none ∧
        ∃ tr : Trade,
          (blockExitPhase cfg pricer st b).trades = st.trades ++ [tr] ∧
          (tr.exit_reason = "TP" ∨ tr.exit_reason = "SL" ∨
            tr.exit_reason = "EOD") ∧
          tr.entry_time = p.entry_time) ∧
    ((eodClose cfg pricer st bars vix).current_position = none ∧
      ∃ tr : Trade,
        (eodClose cfg pricer st bars vix).trades = st.trades ++ [tr] ∧
        tr.exit_reason = "EOD" ∧ tr.entry_time = p.entry_time) := by
  refine ⟨?_, ?_, ?_, ?_⟩
  · unfold entryPhase
    simp only [hpos]
  · unfold mainExitPhase
    simp only [hpos]
    by_cases ho : cfg.use_options = true
    · rw [if_pos ho]
      split
      · rename_i reason heq
        exact Or.inr ⟨rfl, _, rfl, exit_reason_main_options_mem heq, rfl⟩
      · exact Or.inl ⟨hpos, rfl⟩
    · rw [if_neg ho]
      split
      · rename_i reason heq
        exact Or.inr ⟨rfl, _, rfl, exit_reason_main_shares_mem heq, rfl⟩
      · exact Or.inl ⟨hpos, rfl⟩
  · unfold blockExitPhase
    simp only [hpos]
    by_cases ho : cfg.use_options = true
    · rw [if_pos ho]
      split
      · rename_i reason heq
        exact Or.inr ⟨rfl, _, rfl, exit_reason_block_options_mem heq, rfl⟩
      · exact Or.inl ⟨hpos, rfl⟩
    · rw [if_neg ho]
      split
      · rename_i reason heq
        exact Or.inr ⟨rfl, _, rfl, exit_reason_block_shares_mem heq, rfl⟩
      · exact Or.inl ⟨hpos, rfl⟩
  · unfold eodClose
    simp only [hpos, hlast]
    split_ifs <;> exact ⟨rfl, _, rfl, rfl, rfl⟩

/-- Witness for C1: with an open position, a HIGH-confidence CALL signal does
not open a second position. -/
theorem single_open_position_witness :
    entryPhase sampleCfgOptions (constPricer 2)
        ⟨some samplePos, [], none, none⟩ (sampleBar sigCallHigh) =
      ⟨some samplePos, [], none, none⟩ :=
  (single_open_position sampleCfgOptions (constPricer 2)
    ⟨some samplePos, [], none, none⟩ (sampleBar sigCallHigh)
    [sampleBar sigNone] none samplePos (sampleBar sigNone) rfl rfl).1

end SpyDashboard
